import Mathlib

/-!
# hs_serial_demo: the loopback test procedure of `main.c`

A shallow embedding of `send_and_recv_data_test` (main.c, lines 51-164) and of
`hs_time_get_current_timestamp_ms` (lines 25-41).

* Bytes (`uint8_t`) are natural numbers; `int` and `ssize_t` results are integers.
* The serial driver (`hs_serial_*`) is an external collaborator: what each of its
  calls returns is a field of `Channel`.
* A run yields the returned code together with the ordered trace of the driver
  calls and `printf` outputs it performed.
* The array `send_data` has no terminating zero byte, so the procedure reads the
  stack memory that follows it; what it finds there at each of its reads is a
  field of `Stack`.
-/

namespace HsSerialDemo

/-! ## Data model -/

/-- Seconds and nanoseconds as filled in by `clock_gettime`. -/
structure timespec where
  tv_sec : Int
  tv_nsec : Int
deriving DecidableEq

/-- What the serial driver answers during one cycle. The driver itself
(`hs_serial.h`) is outside `main.c`; each field is the result of the one call the
procedure can make to that operation.

* `create`: `hs_serial_create` returned a non-NULL handle;
* `init`, `flush`: the `int` returned by `hs_serial_init`, `hs_serial_flush_both_cache`;
* `write`, `read`: the `ssize_t` returned by `hs_serial_write_data`, `hs_serial_read_data`;
* `read_bytes`: the bytes `hs_serial_read_data` stores from the start of the buffer
  it is handed (it stores at most the length it is asked for). -/
structure Channel where
  create : Bool
  init : Int
  flush : Int
  write : Int
  read : Int
  read_bytes : List Nat
deriving DecidableEq

/-- One observable action of a run: a call to the serial driver with its
data arguments, or one `printf` with the text it produced. The line parameters of
`hs_serial_init` are the fixed constants of line 61 (115200 baud, flow control 0,
8 data bits, no parity, 1 stop bit). -/
inductive Event where
  | hs_serial_create
  | hs_serial_init (serial_name : String)
  | hs_serial_flush_both_cache
  | hs_serial_write_data (data : List Nat) (len : Nat)
  | hs_serial_read_data (len : Nat) (timeout_ms : Nat)
  | hs_serial_destroy
  | printf (text : String)
deriving DecidableEq

/-- The stack memory next to the two local buffers, as the run finds it.
`send_data` holds seven bytes and no terminating zero byte, so `strlen` (line 70)
scans on into the bytes that follow the array, and the log loop (lines 77-80),
the write (line 95) and `memcmp` (line 132) read `send_data_len` bytes from the
start of the array. The memory behind the array is other stack storage, which
the procedure assigns between these reads, so each read has its own view of it.

* `behind_strlen`: the bytes that follow the array when `strlen` scans, a zero
  byte following them at the latest;
* `behind_log`, `behind_write`, `behind_memcmp`: the byte at each offset behind
  the array when the log loop, `hs_serial_write_data` and `memcmp` read it;
* `behind_recv`: the byte at each offset behind `recv_data` when the reply is
  logged (lines 139-142, 155-158), read when `read_len` exceeds the buffer. -/
structure Stack where
  behind_strlen : List Nat
  behind_log : Nat → Nat
  behind_write : Nat → Nat
  behind_memcmp : Nat → Nat
  behind_recv : Nat → Nat

/-- The outcome of one run: the returned code and the trace of actions. -/
structure Run where
  ret : Int
  trace : List Event
deriving DecidableEq

/-! ## libc helpers -/

/-- C `strlen` over the bytes found from the pointer onwards: the number of
bytes before the first zero byte. (On a memory image holding no zero byte the
scan stops at its end.) -/
def strlen : List Nat → Nat
  | [] => 0
  | b :: rest => if b = 0 then 0 else strlen rest + 1

/-- C `memcmp` over the first `n` bytes of two memory images: zero when they
agree, otherwise the difference of the first pair of bytes that differ. (On an
image shorter than `n` the comparison stops at its end; the procedure hands it
images of `n` bytes, see `payload_length` and `recv_data_length`.) -/
def memcmp : List Nat → List Nat → Nat → Int
  | _, _, 0 => 0
  | a :: as, b :: bs, n + 1 => if a = b then memcmp as bs n else (a : Int) - (b : Int)
  | _, _, _ + 1 => 0

/-- C `memset(buf, 0, n)` on a fresh buffer of `n` bytes. -/
def memset_zero (n : Nat) : List Nat := List.replicate n 0

/-- The buffer `buf` after `data` has been stored from its first byte on,
never beyond its capacity. -/
def store (buf data : List Nat) : List Nat :=
  data.take buf.length ++ buf.drop data.length

/-- The `n` bytes read from the start of the buffer `buf`, a read beyond the
buffer finding `behind i` at offset `i` behind it. -/
def bytes_at (buf : List Nat) (behind : Nat → Nat) (n : Nat) : List Nat :=
  (buf ++ (List.range n).map behind).take n

/-! ## printf conversions -/

/-- One upper-case hexadecimal digit. -/
def hexDigit (n : Nat) : Char :=
  if n < 10 then Char.ofNat (48 + n) else Char.ofNat (55 + n)

/-- The conversion `%02X` applied to a byte. -/
def fmt_02X (b : Nat) : String :=
  String.mk [hexDigit (b / 16 % 16), hexDigit (b % 16)]

/-- The conversion `%ld` / `%d` applied to a signed value. -/
def fmt_ld (v : Int) : String := toString v

/-- The conversion `%ld` applied to a 64-bit unsigned value (`uint64_t`,
`size_t`): the same 64 bits read as a signed `long`. -/
def fmt_ld_u64 (v : Nat) : String :=
  if v % 2 ^ 64 < 2 ^ 63 then toString (v % 2 ^ 64)
  else fmt_ld ((v % 2 ^ 64 : Nat) - (2 ^ 64 : Int))

/-- The loop `for (i = 0; i < n; i++) printf("0x%02X ", data[i]);`. -/
def print_bytes (data : List Nat) (n : Nat) : List Event :=
  (data.take n).map (fun b => Event.printf ("0x" ++ fmt_02X b ++ " "))

/-! ## hs_time_get_current_timestamp_ms (main.c 25-41) -/

/-- The function `hs_time_get_current_timestamp_ms`. `timestamp_ms` is the cell
the pointer designates (`none` for NULL), `clock` the result of `clock_gettime`
(`none` when it returns -1). Returns the code and the cell afterwards. -/
def hs_time_get_current_timestamp_ms (clock : Option timespec)
    (timestamp_ms : Option Nat) : Int × Option Nat :=
  match timestamp_ms with
  | none => (-1, none)
  | some cur =>
    match clock with
    | none => (-2, some cur)
    | some time_spec =>
      (0, some ((time_spec.tv_sec * 1000 + Int.tdiv time_spec.tv_nsec 1000000) % 2 ^ 64).toNat)

/-- The value of the local `current_timestamp` after
`hs_time_get_current_timestamp_ms(&current_timestamp)`. -/
def update_timestamp (clock : Option timespec) (current_timestamp : Nat) : Nat :=
  ((hs_time_get_current_timestamp_ms clock (some current_timestamp)).2).getD current_timestamp

/-! ## send_and_recv_data_test (main.c 51-164) -/

/-- The initialiser of the local array `send_data` (line 69): seven bytes,
with no terminating zero byte. -/
def send_data : List Nat := [0xAA, 0x01, 0x03, 0x11, 0x22, 0x33, 0xBB]

/-- Line 70: `send_data_len = strlen((char *)send_data)`. The scan runs over
the seven bytes of the array, the bytes that follow it and a closing zero byte
(where a scan that returns comes to rest at the latest). -/
def send_data_len (st : Stack) : Nat := strlen (send_data ++ st.behind_strlen ++ [0])

/-- Lines 77-80: the `send_data_len` bytes the log loop reads at `send_data`. -/
def payload_logged (st : Stack) : List Nat :=
  bytes_at send_data st.behind_log (send_data_len st)

/-- Line 95: the `send_data_len` bytes handed to `hs_serial_write_data`. -/
def payload_written (st : Stack) : List Nat :=
  bytes_at send_data st.behind_write (send_data_len st)

/-- Line 132: the `send_data_len` bytes `memcmp` reads at `send_data`, the
payload the reply is compared with. -/
def payload (st : Stack) : List Nat :=
  bytes_at send_data st.behind_memcmp (send_data_len st)

/-- Lines 106-108: the buffer `recv_data[send_data_len]` after `memset` to
zero and after `hs_serial_read_data` has stored its bytes. -/
def recv_data (ch : Channel) (st : Stack) : List Nat :=
  store (memset_zero (send_data_len st)) ch.read_bytes

/-- Lines 53-81: the actions up to the log of the outgoing bytes, reached
once create and init have succeeded. `t0` is the first clock reading. -/
def trace_logged (t0 : Option timespec) (serial_name : String) (st : Stack) :
    List Event :=
  [Event.hs_serial_create, Event.hs_serial_init serial_name,
    Event.printf ("[" ++ fmt_ld_u64 (update_timestamp t0 0) ++ "] serial " ++ serial_name
      ++ " write data[len = " ++ fmt_ld_u64 (send_data_len st) ++ "]: ")]
  ++ print_bytes (payload_logged st) (send_data_len st)
  ++ [Event.printf "\n"]

/-- Lines 138-143 and 154-159: the log of the received bytes: the loop prints
`read_len` bytes from the start of `recv_data`, going on into the memory behind
the buffer when `read_len` exceeds its capacity. -/
def trace_reply (ts : Nat) (serial_name : String) (recv : List Nat) (behind : Nat → Nat)
    (read_len : Int) : List Event :=
  [Event.printf ("[" ++ fmt_ld_u64 ts ++ "] serial " ++ serial_name
      ++ " read data[len = " ++ fmt_ld read_len ++ "]: ")]
  ++ print_bytes (bytes_at recv behind read_len.toNat) read_len.toNat
  ++ [Event.printf "\n"]

/-- The procedure `send_and_recv_data_test`. `clock k` is the result of the
`k`-th call of `clock_gettime`, `st` the stack memory next to the local buffers.
The branches are those of the source, in its order; the InitFailed branch
(lines 62-67) returns without `hs_serial_destroy`, and the message of the
WriteFailed branch (line 98) prints `ret`, which at that point still holds the
result of the flush. -/
def send_and_recv_data_test (ch : Channel) (clock : Nat → Option timespec)
    (serial_name : String) (st : Stack) : Run :=
  if ch.create = false then
    ⟨-1, [Event.hs_serial_create, Event.printf "create serial failed\n"]⟩
  else if ch.init ≠ 0 then
    ⟨-2, [Event.hs_serial_create, Event.hs_serial_init serial_name,
      Event.printf ("init " ++ serial_name ++ " failed. ret: " ++ fmt_ld ch.init ++ "\n")]⟩
  else
    let len := send_data_len st
    let ts0 := update_timestamp (clock 0) 0
    let logged := trace_logged (clock 0) serial_name st ++ [Event.hs_serial_flush_both_cache]
    if ch.flush ≠ 0 then
      ⟨-3, logged ++
        [Event.printf ("serial " ++ serial_name ++ " flush both data failed. ret: "
            ++ fmt_ld ch.flush ++ "\n"),
          Event.hs_serial_destroy]⟩
    else
      let written := logged ++ [Event.hs_serial_write_data (payload_written st) len]
      if ch.write < 0 then
        ⟨-4, written ++
          [Event.printf ("serial " ++ serial_name ++ " write data failed. ret: "
              ++ fmt_ld ch.flush ++ "\n"),
            Event.hs_serial_destroy]⟩
      else
        let recv := recv_data ch st
        let read := written ++ [Event.hs_serial_read_data len 1000]
        let ts1 := update_timestamp (clock 1) ts0
        if ch.read < 0 then
          ⟨-5, read ++
            [Event.printf ("[" ++ fmt_ld_u64 ts1 ++ "] serial " ++ serial_name
                ++ " read data failed. ret: " ++ fmt_ld ch.read ++ "\n"),
              Event.hs_serial_destroy]⟩
        else if ch.read = 0 then
          ⟨-6, read ++
            [Event.printf ("[" ++ fmt_ld_u64 ts1 ++ "] serial " ++ serial_name
                ++ " read data timeout\n"),
              Event.hs_serial_destroy]⟩
        else if memcmp (payload st) recv len ≠ 0 then
          ⟨-7, read ++
            [Event.printf ("[" ++ fmt_ld_u64 ts1 ++ "] serial " ++ serial_name
                ++ " read data failed. ret: " ++ fmt_ld ch.read ++ "\n"),
              Event.hs_serial_destroy]
            ++ trace_reply ts1 serial_name recv st.behind_recv ch.read⟩
        else
          let ts2 := update_timestamp (clock 2) ts1
          ⟨0, read ++
            [Event.printf ("[" ++ fmt_ld_u64 ts2 ++ "] serial " ++ serial_name
                ++ " read data success\n"),
              Event.hs_serial_destroy]
            ++ trace_reply ts2 serial_name recv st.behind_recv ch.read⟩

/-! ## Observations on a trace -/

/-- Number of `hs_serial_destroy` calls in a trace. -/
def destroy_calls (tr : List Event) : Nat :=
  tr.countP (fun e => match e with | Event.hs_serial_destroy => true | _ => false)

/-- Number of `hs_serial_write_data` calls in a trace. -/
def write_calls (tr : List Event) : Nat :=
  tr.countP (fun e => match e with | Event.hs_serial_write_data _ _ => true | _ => false)

/-- Number of `hs_serial_read_data` calls in a trace. -/
def read_calls (tr : List Event) : Nat :=
  tr.countP (fun e => match e with | Event.hs_serial_read_data _ _ => true | _ => false)

/-- The channel `ch` with other bytes stored by `hs_serial_read_data`. -/
def with_read_bytes (ch : Channel) (bytes : List Nat) : Channel :=
  ⟨ch.create, ch.init, ch.flush, ch.write, ch.read, bytes⟩

/-- The channel `ch` with another result of `hs_serial_write_data`. -/
def with_write (ch : Channel) (w : Int) : Channel :=
  ⟨ch.create, ch.init, ch.flush, w, ch.read, ch.read_bytes⟩

/-- An echoing channel: every step succeeds, `write` returns `w`, `read`
returns `n` and stores `bytes`. -/
def echo (w n : Int) (bytes : List Nat) : Channel :=
  ⟨true, 0, 0, w, n, bytes⟩

/-- A clock whose every reading fails. -/
def no_clock : Nat → Option timespec := fun _ => none

/-- The memory view that finds the bytes `l` and zero bytes after them. -/
def behind (l : List Nat) : Nat → Nat := fun i => l.getD i 0

/-- A stack on which the bytes `l` follow `send_data` at every read, with zero
bytes behind `recv_data`. -/
def still (l : List Nat) : Stack := ⟨l, behind l, behind l, behind l, behind []⟩

/-- A stack on which the byte behind `send_data` is `b` up to the write and
`c` at the comparison (as when the local `read_len` is stored there). -/
def moved (b c : Nat) : Stack := ⟨[b], behind [b], behind [b], behind [c], behind []⟩

/-! ## Lemmas on the libc helpers -/

theorem strlen_le_length (l : List Nat) : strlen l ≤ l.length := by
  induction l with
  | nil => simp [strlen]
  | cons b rest ih =>
    unfold strlen
    split
    · simp
    · simpa using ih

theorem strlen_append_zero (p rest : List Nat) (hp : ∀ b ∈ p, b ≠ 0) :
    strlen (p ++ 0 :: rest) = p.length := by
  induction p with
  | nil => simp [strlen]
  | cons b p ih =>
    have hb : b ≠ 0 := hp b (by simp)
    have ih2 := ih (fun c hc => hp c (by simp [hc]))
    simp [strlen, hb, ih2]

theorem strlen_append_nonzero (p rest : List Nat) (hp : ∀ b ∈ p, b ≠ 0) :
    strlen (p ++ rest) = p.length + strlen rest := by
  induction p with
  | nil => simp
  | cons b p ih =>
    have hb : b ≠ 0 := hp b (by simp)
    have ih2 := ih (fun c hc => hp c (by simp [hc]))
    simp [strlen, hb, ih2]
    omega

theorem take_strlen_nonzero (l : List Nat) : ∀ b ∈ l.take (strlen l), b ≠ 0 := by
  induction l with
  | nil => simp [strlen]
  | cons c rest ih =>
    unfold strlen
    split
    · simp
    · rename_i hc
      intro b hb
      simp only [List.take_succ_cons, List.mem_cons] at hb
      rcases hb with rfl | hb
      · exact hc
      · exact ih b hb

theorem memcmp_eq_zero_iff (n : Nat) : ∀ (a b : List Nat), n ≤ a.length → n ≤ b.length →
    (memcmp a b n = 0 ↔ a.take n = b.take n) := by
  induction n with
  | zero => intro a b _ _; simp [memcmp]
  | succ n ih =>
    intro a b ha hb
    cases a with
    | nil => simp at ha
    | cons x as =>
      cases b with
      | nil => simp at hb
      | cons y bs =>
        simp only [List.length_cons, Nat.add_le_add_iff_right] at ha hb
        by_cases hxy : x = y
        · simp [memcmp, hxy, ih as bs ha hb]
        · have hne : (x : Int) - (y : Int) ≠ 0 := by omega
          simp [memcmp, hxy, hne]

theorem store_memset_length (n : Nat) (data : List Nat) :
    (store (memset_zero n) data).length = n := by
  simp [store, memset_zero]
  omega

/-! ## Lemmas on the procedure -/

theorem bytes_at_length (buf : List Nat) (f : Nat → Nat) (n : Nat) :
    (bytes_at buf f n).length = n := by
  simp [bytes_at]

theorem bytes_at_of_le (buf : List Nat) (f : Nat → Nat) (n : Nat) (h : n ≤ buf.length) :
    bytes_at buf f n = buf.take n := by
  simp [bytes_at, List.take_append_of_le_length h]

theorem bytes_at_getElem (buf : List Nat) (f : Nat → Nat) (n i : Nat) (hi : i < buf.length)
    (hn : i < n) : (bytes_at buf f n)[i]? = buf[i]? := by
  unfold bytes_at
  rw [List.getElem?_take, if_pos hn, List.getElem?_append_left hi]

theorem recv_data_length (ch : Channel) (st : Stack) :
    (recv_data ch st).length = send_data_len st :=
  store_memset_length _ _

theorem payload_length (st : Stack) : (payload st).length = send_data_len st :=
  bytes_at_length _ _ _

theorem send_data_len_eq (st : Stack) :
    send_data_len st = 7 + strlen (st.behind_strlen ++ [0]) := by
  have h : ∀ b ∈ send_data, b ≠ 0 := by decide
  have := strlen_append_nonzero send_data (st.behind_strlen ++ [0]) h
  simpa [send_data_len, send_data] using this

/-- Within the seven bytes of the array the payload compared is the array. -/
theorem payload_getElem (st : Stack) (i : Nat) (hi : i < 7) :
    (payload st)[i]? = send_data[i]? := by
  have hlen := send_data_len_eq st
  exact bytes_at_getElem send_data _ _ i (by simpa [send_data] using hi) (by omega)

/-- When `strlen` finds the length 7, every read at `send_data` finds the
seven bytes of the array. -/
theorem payload_of_terminated (st : Stack) (h : send_data_len st = 7) :
    payload st = send_data ∧ payload_written st = send_data ∧ payload_logged st = send_data := by
  simp [payload, payload_written, payload_logged, h, bytes_at, send_data]

/-- The `memcmp` of line 132 is zero exactly when the reply buffer holds the
payload. -/
theorem memcmp_recv (ch : Channel) (st : Stack) :
    memcmp (payload st) (recv_data ch st) (send_data_len st) = 0 ↔
      recv_data ch st = payload st := by
  rw [memcmp_eq_zero_iff _ _ _ (le_of_eq (payload_length st).symm)
    (le_of_eq (recv_data_length ch st).symm)]
  rw [List.take_of_length_le (le_of_eq (recv_data_length ch st)),
    List.take_of_length_le (le_of_eq (payload_length st))]
  exact eq_comm

/-- The returned code as a function of the channel results. -/
theorem ret_eq (ch : Channel) (clock : Nat → Option timespec) (serial_name : String)
    (st : Stack) :
    (send_and_recv_data_test ch clock serial_name st).ret =
      if ch.create = false then -1
      else if ch.init ≠ 0 then -2
      else if ch.flush ≠ 0 then -3
      else if ch.write < 0 then -4
      else if ch.read < 0 then -5
      else if ch.read = 0 then -6
      else if recv_data ch st ≠ payload st then -7
      else 0 := by
  have hm := memcmp_recv ch st
  unfold send_and_recv_data_test
  simp only []
  split_ifs <;> simp_all

theorem destroy_calls_append (a b : List Event) :
    destroy_calls (a ++ b) = destroy_calls a + destroy_calls b := by
  simp [destroy_calls]

theorem write_calls_append (a b : List Event) :
    write_calls (a ++ b) = write_calls a + write_calls b := by
  simp [write_calls]

theorem read_calls_append (a b : List Event) :
    read_calls (a ++ b) = read_calls a + read_calls b := by
  simp [read_calls]

theorem calls_print_bytes (data : List Nat) (n : Nat) :
    destroy_calls (print_bytes data n) = 0 ∧ write_calls (print_bytes data n) = 0 ∧
      read_calls (print_bytes data n) = 0 := by
  unfold print_bytes
  generalize data.take n = l
  induction l with
  | nil => simp [destroy_calls, write_calls, read_calls]
  | cons b l ih =>
    simp only [destroy_calls, write_calls, read_calls, List.map_cons, List.countP_cons] at ih ⊢
    simp [ih]

theorem calls_trace_logged (t0 : Option timespec) (serial_name : String) (st : Stack) :
    destroy_calls (trace_logged t0 serial_name st) = 0 ∧
      write_calls (trace_logged t0 serial_name st) = 0 ∧
      read_calls (trace_logged t0 serial_name st) = 0 := by
  obtain ⟨h1, h2, h3⟩ := calls_print_bytes (payload_logged st) (send_data_len st)
  refine ⟨?_, ?_, ?_⟩
  · simp only [trace_logged, destroy_calls_append, h1]; simp [destroy_calls]
  · simp only [trace_logged, write_calls_append, h2]; simp [write_calls]
  · simp only [trace_logged, read_calls_append, h3]; simp [read_calls]

theorem calls_trace_reply (ts : Nat) (serial_name : String) (recv : List Nat)
    (f : Nat → Nat) (read_len : Int) :
    destroy_calls (trace_reply ts serial_name recv f read_len) = 0 ∧
      write_calls (trace_reply ts serial_name recv f read_len) = 0 ∧
      read_calls (trace_reply ts serial_name recv f read_len) = 0 := by
  obtain ⟨h1, h2, h3⟩ := calls_print_bytes (bytes_at recv f read_len.toNat) read_len.toNat
  refine ⟨?_, ?_, ?_⟩
  · simp only [trace_reply, destroy_calls_append, h1]; simp [destroy_calls]
  · simp only [trace_reply, write_calls_append, h2]; simp [write_calls]
  · simp only [trace_reply, read_calls_append, h3]; simp [read_calls]

/-- How often a run releases the handle. -/
theorem destroy_calls_eq (ch : Channel) (clock : Nat → Option timespec) (serial_name : String)
    (st : Stack) :
    destroy_calls (send_and_recv_data_test ch clock serial_name st).trace =
      if ch.create = false then 0 else if ch.init ≠ 0 then 0 else 1 := by
  have hl := (calls_trace_logged (clock 0) serial_name st).1
  have hr := fun ts =>
    (calls_trace_reply ts serial_name (recv_data ch st) st.behind_recv ch.read).1
  unfold send_and_recv_data_test
  simp only []
  split_ifs <;> simp only [destroy_calls_append, hl, hr] <;> simp [destroy_calls]

/-- How often a run calls `hs_serial_write_data`. -/
theorem write_calls_eq (ch : Channel) (clock : Nat → Option timespec) (serial_name : String)
    (st : Stack) :
    write_calls (send_and_recv_data_test ch clock serial_name st).trace =
      if ch.create = false then 0 else if ch.init ≠ 0 then 0
      else if ch.flush ≠ 0 then 0 else 1 := by
  have hl := (calls_trace_logged (clock 0) serial_name st).2.1
  have hr := fun ts =>
    (calls_trace_reply ts serial_name (recv_data ch st) st.behind_recv ch.read).2.1
  unfold send_and_recv_data_test
  simp only []
  split_ifs <;> simp only [write_calls_append, hl, hr] <;> simp [write_calls]

/-- How often a run calls `hs_serial_read_data`. -/
theorem read_calls_eq (ch : Channel) (clock : Nat → Option timespec) (serial_name : String)
    (st : Stack) :
    read_calls (send_and_recv_data_test ch clock serial_name st).trace =
      if ch.create = false then 0 else if ch.init ≠ 0 then 0
      else if ch.flush ≠ 0 then 0 else if ch.write < 0 then 0 else 1 := by
  have hl := (calls_trace_logged (clock 0) serial_name st).2.2
  have hr := fun ts =>
    (calls_trace_reply ts serial_name (recv_data ch st) st.behind_recv ch.read).2.2
  unfold send_and_recv_data_test
  simp only []
  split_ifs <;> simp only [read_calls_append, hl, hr] <;> simp [read_calls]

/-- Once create, init and flush have succeeded, the run hands the bytes found
at `send_data` and their length to `hs_serial_write_data`. -/
theorem write_event_mem (ch : Channel) (clock : Nat → Option timespec) (serial_name : String)
    (st : Stack) (hcreate : ch.create = true) (hinit : ch.init = 0)
    (hflush : ch.flush = 0) :
    Event.hs_serial_write_data (payload_written st) (send_data_len st) ∈
      (send_and_recv_data_test ch clock serial_name st).trace := by
  unfold send_and_recv_data_test
  simp only [hcreate, hinit, hflush, Bool.true_eq_false, if_false, ne_eq, not_true_eq_false]
  split_ifs <;> simp

/-- Round trip on a stack where `strlen` finds the length 7: when create, init
and flush succeed, write returns a non-negative value, read returns the length
and the reply buffer holds the bytes written, the run returns 0 and ends with
the log of the reply, whose bytes are those of the array. -/
theorem round_trip_of_terminated (ch : Channel) (clock : Nat → Option timespec)
    (serial_name : String) (st : Stack) (hlen : send_data_len st = 7)
    (hcreate : ch.create = true) (hinit : ch.init = 0) (hflush : ch.flush = 0)
    (hwrite : 0 ≤ ch.write) (hread : ch.read = (send_data_len st : Int))
    (hreply : recv_data ch st = payload_written st) :
    (send_and_recv_data_test ch clock serial_name st).ret = 0 ∧
      Event.hs_serial_write_data send_data 7 ∈
        (send_and_recv_data_test ch clock serial_name st).trace ∧
      ∃ ts, trace_reply ts serial_name send_data st.behind_recv 7 <:+
        (send_and_recv_data_test ch clock serial_name st).trace := by
  obtain ⟨hp, hw, -⟩ := payload_of_terminated st hlen
  have hw2 := write_event_mem ch clock serial_name st hcreate hinit hflush
  rw [hw, hlen] at hw2
  rw [hw] at hreply
  have hm := (memcmp_recv ch st).2 (hreply.trans hp.symm)
  rw [hlen] at hread
  have h4 : ¬ ch.write < 0 := by omega
  have h5 : ¬ ch.read < 0 := by omega
  have h6 : ¬ ch.read = 0 := by omega
  refine ⟨?_, hw2, ?_⟩
  · rw [ret_eq]
    simp [hcreate, hinit, hflush, h4, h5, h6, hreply, hp]
  · unfold send_and_recv_data_test
    simp only [hcreate, hinit, hflush, h4, h5, h6, hm, Bool.true_eq_false, if_false,
      ne_eq, not_true_eq_false]
    refine ⟨update_timestamp (clock 2) (update_timestamp (clock 1) (update_timestamp (clock 0) 0)),
      ?_⟩
    rw [hreply, hread]
    exact List.suffix_append _ _

/-! ## The claims -/

/-- C1 (the code fails it): with a handle created and `hs_serial_init`
returning non-zero (here -1), the run returns -2 and its trace holds no call of
`hs_serial_destroy`: on the InitFailed path the handle is not released. -/
theorem C1_init_failed_no_destroy (clock : Nat → Option timespec) (serial_name : String)
    (st : Stack) :
    (send_and_recv_data_test ⟨true, -1, 0, 7, 7, send_data⟩ clock serial_name st).ret = -2 ∧
      destroy_calls
        (send_and_recv_data_test ⟨true, -1, 0, 7, 7, send_data⟩ clock serial_name st).trace
        = 0 := by
  rw [ret_eq, destroy_calls_eq]
  simp

/-- C3 (the code fails it): on a stack where the byte behind `send_data` is
0x01 when `strlen` scans and when the bytes are written, and 0x08 at the
comparison, create, init and flush succeed, the write succeeds, 8 bytes are
written, read returns that length 8 and the reply buffer holds exactly the 8
bytes written; the run returns -7, not 0. Likewise a reply of the 7 array bytes
with read returning 7 gives -7 on a stack where that byte is 0x01 and then 0x07.
On a stack where the byte behind the array is zero the echo of the 7 bytes
returns 0. -/
theorem C3_round_trip_fails_after_overrun :
    (echo 8 8 (send_data ++ [0x01])).create = true ∧
      (echo 8 8 (send_data ++ [0x01])).init = 0 ∧
      (echo 8 8 (send_data ++ [0x01])).flush = 0 ∧
      0 ≤ (echo 8 8 (send_data ++ [0x01])).write ∧
      (echo 8 8 (send_data ++ [0x01])).read = (send_data_len (moved 0x01 0x08) : Int) ∧
      payload_written (moved 0x01 0x08) = send_data ++ [0x01] ∧
      recv_data (echo 8 8 (send_data ++ [0x01])) (moved 0x01 0x08) =
        payload_written (moved 0x01 0x08) ∧
      (send_and_recv_data_test (echo 8 8 (send_data ++ [0x01])) no_clock "/dev/ttyUSB0"
        (moved 0x01 0x08)).ret = -7 ∧
      (send_and_recv_data_test (echo 7 7 send_data) no_clock "/dev/ttyUSB0"
        (moved 0x01 0x07)).ret = -7 ∧
      (send_and_recv_data_test (echo 7 7 send_data) no_clock "/dev/ttyUSB0" (still [])).ret
        = 0 := by
  rw [ret_eq, ret_eq, ret_eq]
  decide

/-- C5 as stated fails: the fixed payload, every step succeeding, a read that
returns 3 and stores the first three payload bytes (the other four reply bytes
stay zero) does not return 0; it returns -7. -/
theorem C5_short_read_counterexample :
    (echo 7 3 [0xAA, 0x01, 0x03]).create = true ∧ (echo 7 3 [0xAA, 0x01, 0x03]).init = 0 ∧
      (echo 7 3 [0xAA, 0x01, 0x03]).flush = 0 ∧ 0 ≤ (echo 7 3 [0xAA, 0x01, 0x03]).write ∧
      0 < (echo 7 3 [0xAA, 0x01, 0x03]).read ∧
      (echo 7 3 [0xAA, 0x01, 0x03]).read < (send_data_len (still []) : Int) ∧
      (recv_data (echo 7 3 [0xAA, 0x01, 0x03]) (still [])).take 3 = (payload (still [])).take 3 ∧
      (recv_data (echo 7 3 [0xAA, 0x01, 0x03]) (still [])).drop 3 = [0, 0, 0, 0] ∧
      (send_and_recv_data_test (echo 7 3 [0xAA, 0x01, 0x03]) no_clock "/dev/ttyUSB0"
        (still [])).ret ≠ 0 ∧
      (send_and_recv_data_test (echo 7 3 [0xAA, 0x01, 0x03]) no_clock "/dev/ttyUSB0"
        (still [])).ret = -7 := by
  rw [ret_eq]
  decide

/-- C5 amended: the reply is compared with the payload over the whole payload
length. When the run reaches the read step, read returns `n` with `0 < n < 7`
(fewer bytes than the payload array holds), the first `n` reply bytes equal the
first `n` payload bytes and the other reply bytes are left at zero, the run
returns -7. -/
theorem C5_short_read_is_mismatch (ch : Channel) (clock : Nat → Option timespec)
    (serial_name : String) (st : Stack) (hcreate : ch.create = true)
    (hinit : ch.init = 0) (hflush : ch.flush = 0) (hwrite : 0 ≤ ch.write)
    (n : Nat) (hn : 0 < n) (hlt : n < send_data.length) (hread : ch.read = (n : Int))
    (hreply : recv_data ch st =
      (payload st).take n ++ List.replicate (send_data_len st - n) 0) :
    (send_and_recv_data_test ch clock serial_name st).ret = -7 := by
  have hlt7 : n < 7 := by simpa [send_data] using hlt
  have hlen := send_data_len_eq st
  have hp : (payload st)[n]? = send_data[n]? := payload_getElem st n hlt7
  have htake : ((payload st).take n).length = n := by
    rw [List.length_take, payload_length]
    omega
  have hr : (recv_data ch st)[n]? = some 0 := by
    rw [hreply, List.getElem?_append_right (le_of_eq htake), htake, Nat.sub_self]
    rw [List.getElem?_replicate]
    simp
    omega
  have hne : recv_data ch st ≠ payload st := by
    intro h
    rw [h, hp] at hr
    have hnz : ∀ k, k < 7 → send_data[k]? ≠ some 0 := by decide
    exact hnz n hlt7 hr
  have h4 : ¬ ch.write < 0 := by omega
  have h5 : ¬ ch.read < 0 := by omega
  have h6 : ¬ ch.read = 0 := by omega
  rw [ret_eq]
  simp [hcreate, hinit, hflush, h4, h5, h6, hne]

/-- C5 amended, at a read of the first three bytes of the fixed payload. -/
theorem C5_short_read_is_mismatch_witness :
    (send_and_recv_data_test (echo 7 3 [0xAA, 0x01, 0x03]) no_clock "/dev/ttyUSB0"
      (still [])).ret = -7 :=
  C5_short_read_is_mismatch (echo 7 3 [0xAA, 0x01, 0x03]) no_clock "/dev/ttyUSB0" (still [])
    rfl rfl rfl (by decide) 3 (by decide) (by decide) (by decide) (by decide)

/-- C6: timeout. When the run reaches the read step and read returns 0, the
run returns -6 and neither the code nor the trace depends on the bytes found in
the reply buffer: the run is the same for any other stored bytes. -/
theorem C6_timeout_ignores_buffer (ch : Channel) (clock : Nat → Option timespec)
    (serial_name : String) (st : Stack) (hcreate : ch.create = true)
    (hinit : ch.init = 0) (hflush : ch.flush = 0) (hwrite : 0 ≤ ch.write)
    (hread : ch.read = 0) (bytes : List Nat) :
    (send_and_recv_data_test ch clock serial_name st).ret = -6 ∧
      send_and_recv_data_test (with_read_bytes ch bytes) clock serial_name st =
        send_and_recv_data_test ch clock serial_name st := by
  have h4 : ¬ ch.write < 0 := by omega
  refine ⟨?_, ?_⟩
  · rw [ret_eq]
    simp [hcreate, hinit, hflush, h4, hread]
  · unfold send_and_recv_data_test
    simp [with_read_bytes, hcreate, hinit, hflush, h4, hread]

/-- C6 at the fixed payload with no byte delivered, against a buffer holding
other bytes. -/
theorem C6_timeout_ignores_buffer_witness :
    (send_and_recv_data_test (echo 7 0 []) no_clock "/dev/ttyUSB0" (still [])).ret = -6 ∧
      send_and_recv_data_test (with_read_bytes (echo 7 0 []) send_data) no_clock
          "/dev/ttyUSB0" (still []) =
        send_and_recv_data_test (echo 7 0 []) no_clock "/dev/ttyUSB0" (still []) :=
  C6_timeout_ignores_buffer (echo 7 0 []) no_clock "/dev/ttyUSB0" (still []) rfl rfl rfl (by decide)
    rfl send_data

/-- C7 as stated fails: with the fixed payload, a write that returns 3 (fewer
than the 7 bytes requested) is not reported as WriteFailed: the run goes on to
read once and, the echo being complete, returns 0. -/
theorem C7_short_write_counterexample :
    (echo 3 7 send_data).create = true ∧ (echo 3 7 send_data).init = 0 ∧
      (echo 3 7 send_data).flush = 0 ∧ 0 ≤ (echo 3 7 send_data).write ∧
      (echo 3 7 send_data).write < (send_data_len (still []) : Int) ∧
      (send_and_recv_data_test (echo 3 7 send_data) no_clock "/dev/ttyUSB0" (still [])).ret ≠ -4 ∧
      (send_and_recv_data_test (echo 3 7 send_data) no_clock "/dev/ttyUSB0" (still [])).ret = 0 ∧
      read_calls (send_and_recv_data_test (echo 3 7 send_data) no_clock "/dev/ttyUSB0" (still [])).trace
        = 1 := by
  rw [ret_eq, read_calls_eq]
  decide

/-- C7 amended: when create, init and flush succeed and write returns `n`
with `0 ≤ n < payload length`, the write is not treated as a failure: the run
does not return -4, it calls `hs_serial_read_data` once, and it is the same run
as when the write returns the full payload length. -/
theorem C7_short_write_goes_on (ch : Channel) (clock : Nat → Option timespec)
    (serial_name : String) (st : Stack) (hcreate : ch.create = true)
    (hinit : ch.init = 0) (hflush : ch.flush = 0) (hwrite : 0 ≤ ch.write)
    (_hshort : ch.write < (send_data_len st : Int)) :
    (send_and_recv_data_test ch clock serial_name st).ret ≠ -4 ∧
      read_calls (send_and_recv_data_test ch clock serial_name st).trace = 1 ∧
      send_and_recv_data_test ch clock serial_name st =
        send_and_recv_data_test (with_write ch (send_data_len st)) clock serial_name
          st := by
  have h4 : ¬ ch.write < 0 := by omega
  have h4f : ¬ ((send_data_len st : Nat) : Int) < 0 := by omega
  refine ⟨?_, ?_, ?_⟩
  · rw [ret_eq]
    simp only [hcreate, hinit, hflush, h4, Bool.true_eq_false, if_false, ne_eq,
      not_true_eq_false]
    split_ifs <;> decide
  · rw [read_calls_eq]
    simp [hcreate, hinit, hflush, h4]
  · unfold send_and_recv_data_test
    simp [with_write, recv_data, hcreate, hinit, hflush, h4, h4f]

/-- C7 amended, at a write of 3 of the 7 bytes of the fixed payload. -/
theorem C7_short_write_goes_on_witness :
    (send_and_recv_data_test (echo 3 7 send_data) no_clock "/dev/ttyUSB0" (still [])).ret ≠ -4 ∧
      read_calls (send_and_recv_data_test (echo 3 7 send_data) no_clock "/dev/ttyUSB0" (still [])).trace
        = 1 ∧
      send_and_recv_data_test (echo 3 7 send_data) no_clock "/dev/ttyUSB0" (still []) =
        send_and_recv_data_test (with_write (echo 3 7 send_data) (send_data_len (still []))) no_clock
          "/dev/ttyUSB0" (still []) :=
  C7_short_write_goes_on (echo 3 7 send_data) no_clock "/dev/ttyUSB0" (still []) rfl rfl rfl (by decide)
    (by decide)

/-- C8 (the code fails it): the array `send_data` holds 7 bytes, none of them
zero, and no terminating zero byte, so `strlen` scans on into the memory that
follows the array. With one non-zero byte (0x01) behind the array and a zero
byte after it the computed length is 8, not 7, and while that byte stays there
the payload written is the array followed by that byte. Only when the byte
behind the array is zero is the length 7. -/
theorem C8_strlen_scans_past_array :
    send_data.length = 7 ∧ (∀ b ∈ send_data, b ≠ 0) ∧
      send_data_len (still [0x01]) = 8 ∧ payload_written (still [0x01]) = send_data ++ [0x01] ∧
      Event.hs_serial_write_data (send_data ++ [0x01]) 8 ∈
        (send_and_recv_data_test (echo 8 8 (send_data ++ [0x01])) no_clock "/dev/ttyUSB0"
          (still [0x01])).trace ∧
      send_data_len (still []) = 7 := by
  refine ⟨by decide, by decide, by decide, by decide, ?_, by decide⟩
  have h1 : send_data_len (still [0x01]) = 8 := by decide
  have h2 : payload_written (still [0x01]) = send_data ++ [0x01] := by decide
  have h := write_event_mem (echo 8 8 (send_data ++ [0x01])) no_clock "/dev/ttyUSB0"
    (still [0x01]) rfl rfl rfl
  rw [h1, h2] at h
  exact h

/-- C9: a run calls `hs_serial_destroy` at most once, and not at all when
`hs_serial_create` returns NULL, in which case it returns -1. -/
theorem C9_destroy_at_most_once (ch : Channel) (clock : Nat → Option timespec)
    (serial_name : String) (st : Stack) :
    destroy_calls (send_and_recv_data_test ch clock serial_name st).trace ≤ 1 ∧
      (ch.create = false →
        destroy_calls (send_and_recv_data_test ch clock serial_name st).trace = 0 ∧
          (send_and_recv_data_test ch clock serial_name st).ret = -1) := by
  rw [destroy_calls_eq, ret_eq]
  refine ⟨?_, ?_⟩
  · split_ifs <;> decide
  · intro h
    simp [h]

/-- C9 at a channel whose `hs_serial_create` returns NULL. -/
theorem C9_destroy_at_most_once_witness :
    destroy_calls
        (send_and_recv_data_test ⟨false, 0, 0, 7, 7, send_data⟩ no_clock "/dev/ttyUSB0" (still [])).trace
        = 0 ∧
      (send_and_recv_data_test ⟨false, 0, 0, 7, 7, send_data⟩ no_clock "/dev/ttyUSB0" (still [])).ret
        = -1 :=
  (C9_destroy_at_most_once ⟨false, 0, 0, 7, 7, send_data⟩ no_clock "/dev/ttyUSB0" (still [])).2 rfl

/-- C10: a run calls `hs_serial_write_data` only if
`hs_serial_flush_both_cache` returned 0, and `hs_serial_read_data` only if
`hs_serial_write_data` was called and returned a non-negative value; when create
and init succeed and flush fails it returns -3 with no write and no read. -/
theorem C10_no_step_after_failed_step (ch : Channel) (clock : Nat → Option timespec)
    (serial_name : String) (st : Stack) :
    (write_calls (send_and_recv_data_test ch clock serial_name st).trace ≠ 0 →
        ch.flush = 0) ∧
      (read_calls (send_and_recv_data_test ch clock serial_name st).trace ≠ 0 →
        write_calls (send_and_recv_data_test ch clock serial_name st).trace ≠ 0 ∧
          0 ≤ ch.write) ∧
      (ch.create = true → ch.init = 0 → ch.flush ≠ 0 →
        (send_and_recv_data_test ch clock serial_name st).ret = -3 ∧
          write_calls (send_and_recv_data_test ch clock serial_name st).trace = 0 ∧
          read_calls (send_and_recv_data_test ch clock serial_name st).trace = 0) := by
  rw [write_calls_eq, read_calls_eq, ret_eq]
  refine ⟨?_, ?_, ?_⟩
  · split_ifs with h1 h2 h3
    · simp
    · simp
    · simp
    · intro _
      simpa using h3
  · split_ifs with h1 h2 h3 h4
    · simp
    · simp
    · simp
    · simp
    · intro _
      exact ⟨by decide, by omega⟩
  · intro h1 h2 h3
    simp [h1, h2, h3]

/-- C10 at a channel whose flush returns -1. -/
theorem C10_no_step_after_failed_step_witness :
    (send_and_recv_data_test ⟨true, 0, -1, 7, 7, send_data⟩ no_clock "/dev/ttyUSB0" (still [])).ret
        = -3 ∧
      write_calls
        (send_and_recv_data_test ⟨true, 0, -1, 7, 7, send_data⟩ no_clock "/dev/ttyUSB0" (still [])).trace
        = 0 ∧
      read_calls
        (send_and_recv_data_test ⟨true, 0, -1, 7, 7, send_data⟩ no_clock "/dev/ttyUSB0" (still [])).trace
        = 0 :=
  (C10_no_step_after_failed_step ⟨true, 0, -1, 7, 7, send_data⟩ no_clock "/dev/ttyUSB0" (still [])).2.2
    rfl rfl (by decide)

end HsSerialDemo
